import Mathlib

/-!
Verification of the RFM segment-summary and PCA-projection core of the
fashion-retail dashboard (`src/app.py`).

The dashboard script loads a transaction table (`clothing_retail_300.csv`)
and a customer RFM table with precomputed cluster labels
(`rfm_with_clusters.csv`), filters the transaction table by country and
season, summarises the cluster selected by the user
(lines 53-60: `filtered_rfm = rfm[rfm["Cluster"] == selected_cluster]`
followed by the three `.mean()` metrics), and projects the standardized
RFM features to 2D with `StandardScaler` + `PCA(n_components=2)`
(lines 64-69).

The embedding below translates those computations into Lean:

* customer records carry exact rational features (the CSV holds decimal
  numbers) and an integer cluster label;
* `summarize` is the pandas filter-then-mean computation; the mean of an
  empty column is `none`, modelling the `NaN` that pandas produces;
* the projector works over `ℝ`: `standardize` is sklearn's
  `StandardScaler` (population mean/variance per column, scale
  `sqrt var`, with a zero scale replaced by `1` exactly as
  `_handle_zeros_in_scale` does), and `projectWith w₁ w₂` is
  `PCA.fit_transform` with the two principal directions `w₁`, `w₂`
  supplied as parameters: the pipeline centers the matrix and takes dot
  products with the two directions.  `IsPCAAxes` states what sklearn's
  eigendecomposition guarantees about the directions it returns (unit,
  orthogonal, variance-maximal), so theorems quantify over any pair of
  directions satisfying it;
* `PCA(n_components=2).fit` rejects inputs with fewer than 2 samples
  (`n_components=2` must not exceed `min(n_samples, n_features)`), which
  the spec names `InsufficientDataError`; the guard in `projectWith`
  models this;
* the script's top level is modelled by `runScript` over a small
  file-system record: the two unguarded `pd.read_csv` calls propagate a
  missing-file error, a projection failure at line 67 aborts the run and
  propagates as well, and only the association-rules read sits in the one
  `try/except FileNotFoundError` block of the program (lines 99-105).
-/

namespace FashionDashboard

/-- A row of `rfm_with_clusters.csv`: the three RFM behavioural features
together with the precomputed cluster label. -/
structure CustomerSegmentRecord where
  recency : ℚ
  frequency : ℚ
  monetary : ℚ
  cluster : ℤ
deriving DecidableEq

/-- The per-segment statistics displayed by the three `st.metric` widgets
(lines 57-60).  An average is `none` exactly when pandas would produce
`NaN` (mean of an empty column). -/
structure SegmentStats where
  count : ℕ
  avgRecency : Option ℚ
  avgFrequency : Option ℚ
  avgMonetary : Option ℚ
deriving DecidableEq

/-- Mean of a column, as pandas `.mean()`: `NaN` (here `none`) on an empty
column, otherwise the sum divided by the length. -/
def colMean (xs : List ℚ) : Option ℚ :=
  match xs with
  | [] => none
  | _ => some (xs.sum / xs.length)

/-- Line 54: `filtered_rfm = rfm[rfm["Cluster"] == selected_cluster]`. -/
def filteredRFM (rfm : List CustomerSegmentRecord) (selectedCluster : ℤ) :
    List CustomerSegmentRecord :=
  rfm.filter (fun r => r.cluster == selectedCluster)

/-- Lines 54-60: filter the RFM table to the selected cluster and average
each of the three features over the filtered subset. -/
def summarize (rfm : List CustomerSegmentRecord) (selectedCluster : ℤ) :
    SegmentStats :=
  let f := filteredRFM rfm selectedCluster
  { count := f.length
    avgRecency := colMean (f.map (fun r => r.recency))
    avgFrequency := colMean (f.map (fun r => r.frequency))
    avgMonetary := colMean (f.map (fun r => r.monetary)) }

/-- `colMean` on a nonempty column is the sum over the length. -/
theorem colMean_ne_nil (xs : List ℚ) (h : xs ≠ []) :
    colMean xs = some (xs.sum / xs.length) := by
  cases xs with
  | nil => exact absurd rfl h
  | cons a l => rfl

theorem filteredRFM_eq_filter (rfm : List CustomerSegmentRecord) (c : ℤ) :
    filteredRFM rfm c = rfm.filter (fun r => r.cluster == c) := rfl

theorem length_filteredRFM_eq_countP (rfm : List CustomerSegmentRecord) (c : ℤ) :
    (filteredRFM rfm c).length = rfm.countP (fun r => r.cluster == c) :=
  (List.countP_eq_length_filter _ _).symm

/-- If the label occurs in the table, the filtered table is nonempty. -/
theorem filteredRFM_ne_nil (rfm : List CustomerSegmentRecord) (c : ℤ)
    (hmem : c ∈ rfm.map (fun r => r.cluster)) : filteredRFM rfm c ≠ [] := by
  rcases List.mem_map.mp hmem with ⟨r, hr, hrc⟩
  intro hnil
  have : r ∈ filteredRFM rfm c := by
    apply List.mem_filter.mpr
    exact ⟨hr, by simpa using hrc⟩
  rw [hnil] at this
  exact (List.not_mem_nil r) this

/-- C1: for a nonempty table and a label present in it, `summarize` counts
exactly the records with that label, and each average is the arithmetic
mean of the corresponding feature over exactly the filtered subset. -/
theorem summarize_count_and_means (rfm : List CustomerSegmentRecord) (c : ℤ)
    (_hne : rfm ≠ []) (hmem : c ∈ rfm.map (fun r => r.cluster)) :
    (summarize rfm c).count = rfm.countP (fun r => r.cluster == c) ∧
    (summarize rfm c).avgRecency =
      some (((rfm.filter (fun r => r.cluster == c)).map (fun r => r.recency)).sum /
        (rfm.countP (fun r => r.cluster == c) : ℚ)) ∧
    (summarize rfm c).avgFrequency =
      some (((rfm.filter (fun r => r.cluster == c)).map (fun r => r.frequency)).sum /
        (rfm.countP (fun r => r.cluster == c) : ℚ)) ∧
    (summarize rfm c).avgMonetary =
      some (((rfm.filter (fun r => r.cluster == c)).map (fun r => r.monetary)).sum /
        (rfm.countP (fun r => r.cluster == c) : ℚ)) := by
  have hf : filteredRFM rfm c ≠ [] := filteredRFM_ne_nil rfm c hmem
  have hcount : (filteredRFM rfm c).length = rfm.countP (fun r => r.cluster == c) :=
    length_filteredRFM_eq_countP rfm c
  refine ⟨hcount, ?_, ?_, ?_⟩ <;>
  · show colMean _ = _
    rw [colMean_ne_nil _ (by simpa using hf)]
    rw [List.length_map, hcount]
    rfl

/-- Fixture from the spec: three records with monetary values 10, 20, 30
in cluster 0. -/
def rfmFixture : List CustomerSegmentRecord :=
  [⟨10, 1, 10, 0⟩, ⟨20, 2, 20, 0⟩, ⟨30, 3, 30, 0⟩]

theorem summarize_count_and_means_witness :
    rfmFixture ≠ [] ∧ (0 : ℤ) ∈ rfmFixture.map (fun r => r.cluster) ∧
    ((summarize rfmFixture 0).count = rfmFixture.countP (fun r => r.cluster == 0) ∧
     (summarize rfmFixture 0).avgRecency =
       some (((rfmFixture.filter (fun r => r.cluster == 0)).map (fun r => r.recency)).sum /
         (rfmFixture.countP (fun r => r.cluster == 0) : ℚ)) ∧
     (summarize rfmFixture 0).avgFrequency =
       some (((rfmFixture.filter (fun r => r.cluster == 0)).map (fun r => r.frequency)).sum /
         (rfmFixture.countP (fun r => r.cluster == 0) : ℚ)) ∧
     (summarize rfmFixture 0).avgMonetary =
       some (((rfmFixture.filter (fun r => r.cluster == 0)).map (fun r => r.monetary)).sum /
         (rfmFixture.countP (fun r => r.cluster == 0) : ℚ))) :=
  ⟨by decide, by decide,
    summarize_count_and_means rfmFixture 0 (by decide) (by decide)⟩

/-- Sanity: on the spec fixture the monetary average is 20. -/
theorem summarize_fixture_avgMonetary :
    (summarize rfmFixture 0).avgMonetary = some 20 := by
  norm_num [summarize, filteredRFM, colMean, rfmFixture, List.filter]

/-- C5: for a label matching zero records, `summarize` returns `count = 0`
and `NaN` (here `none`) averages, and — being a total function — raises
nothing. -/
theorem summarize_absent_label (rfm : List CustomerSegmentRecord) (c : ℤ)
    (habs : c ∉ rfm.map (fun r => r.cluster)) :
    summarize rfm c = ⟨0, none, none, none⟩ := by
  have hnil : filteredRFM rfm c = [] := by
    apply List.filter_eq_nil_iff.mpr
    intro r hr
    intro hbeq
    exact habs (List.mem_map.mpr ⟨r, hr, (beq_iff_eq.mp hbeq)⟩)
  show SegmentStats.mk _ _ _ _ = _
  rw [hnil]
  rfl

theorem summarize_absent_label_witness :
    (7 : ℤ) ∉ rfmFixture.map (fun r => r.cluster) ∧
    summarize rfmFixture 7 = ⟨0, none, none, none⟩ :=
  ⟨by decide, summarize_absent_label rfmFixture 7 (by decide)⟩

/-! ## The feature projector (lines 64-69)

`X = StandardScaler().fit_transform(rfm[["Recency", "Frequency", "Monetary"]])`
followed by `pca_coords = PCA(n_components=2).fit_transform(X)` and the
positional reattachment `pca_df["Cluster"] = rfm["Cluster"]`. -/

/-- Mean of a real column (`0` on an empty column, which never reaches the
projector because of the sample-count guard). -/
noncomputable def rMean (xs : List ℝ) : ℝ := xs.sum / xs.length

/-- Population variance of a column, as `StandardScaler` computes it
(`ddof = 0`). -/
noncomputable def popVar (xs : List ℝ) : ℝ :=
  (xs.map (fun x => (x - rMean xs) ^ 2)).sum / xs.length

/-- A row of the three-feature matrix handed to the scaler and to PCA. -/
structure Vec3 where
  x : ℝ
  y : ℝ
  z : ℝ

def Vec3.dot (v w : Vec3) : ℝ := v.x * w.x + v.y * w.y + v.z * w.z

def Vec3.smul (c : ℝ) (v : Vec3) : Vec3 := ⟨c * v.x, c * v.y, c * v.z⟩

def Vec3.sub (v w : Vec3) : Vec3 := ⟨v.x - w.x, v.y - w.y, v.z - w.z⟩

def recencyCol (rs : List CustomerSegmentRecord) : List ℝ :=
  rs.map (fun r => (r.recency : ℝ))

def frequencyCol (rs : List CustomerSegmentRecord) : List ℝ :=
  rs.map (fun r => (r.frequency : ℝ))

def monetaryCol (rs : List CustomerSegmentRecord) : List ℝ :=
  rs.map (fun r => (r.monetary : ℝ))

/-- `StandardScaler`'s per-feature scale: the square root of the population
variance, except that a zero scale is replaced by `1`
(`sklearn.preprocessing._data._handle_zeros_in_scale`), so a constant
feature is never divided by zero. -/
noncomputable def colScale (xs : List ℝ) : ℝ :=
  if popVar xs = 0 then 1 else Real.sqrt (popVar xs)

/-- Line 65: `X = scaler.fit_transform(rfm[["Recency", "Frequency",
"Monetary"]])` — subtract each feature's mean and divide by its scale. -/
noncomputable def standardize (rs : List CustomerSegmentRecord) : List Vec3 :=
  rs.map (fun r =>
    ⟨((r.recency : ℝ) - rMean (recencyCol rs)) / colScale (recencyCol rs),
     ((r.frequency : ℝ) - rMean (frequencyCol rs)) / colScale (frequencyCol rs),
     ((r.monetary : ℝ) - rMean (monetaryCol rs)) / colScale (monetaryCol rs)⟩)

/-- Componentwise column means of a matrix. -/
noncomputable def meanVec (X : List Vec3) : Vec3 :=
  ⟨rMean (X.map Vec3.x), rMean (X.map Vec3.y), rMean (X.map Vec3.z)⟩

/-- `PCA.fit_transform` first subtracts the column means of its input. -/
noncomputable def center (X : List Vec3) : List Vec3 :=
  X.map (fun v => v.sub (meanVec X))

/-- A row of `pca_df`: the two principal coordinates plus the cluster label
reattached positionally on line 69. -/
structure ProjectedPoint where
  pc1 : ℝ
  pc2 : ℝ
  cluster : ℤ

/-- The spec's error taxonomy for the projector: `PCA(n_components=2).fit`
rejects an input whose sample count is below 2 (the spec names this
condition `InsufficientDataError`). -/
inductive ProjectionError where
  | insufficientDataError
deriving DecidableEq

/-- Lines 66-69, with the two principal directions `w₁`, `w₂` found by the
eigendecomposition passed as parameters: reject fewer than 2 records,
otherwise center the standardized matrix, project each row onto the two
directions, and reattach the cluster labels in input order. -/
noncomputable def projectWith (w₁ w₂ : Vec3) (rs : List CustomerSegmentRecord) :
    Except ProjectionError (List ProjectedPoint) :=
  if rs.length < 2 then .error .insufficientDataError
  else
    .ok (List.zipWith (fun v r => ⟨v.dot w₁, v.dot w₂, r.cluster⟩)
      (center (standardize rs)) rs)

/-- Variance captured along direction `w` by the (centered) matrix `X`:
the mean of the squared projections. -/
noncomputable def dirVar (X : List Vec3) (w : Vec3) : ℝ :=
  (X.map (fun v => v.dot w ^ 2)).sum / X.length

/-- What PCA guarantees about the two directions it returns for the
centered matrix `X`: both are unit vectors, they are orthogonal, the
first maximises captured variance over all directions, and the second
maximises it over the directions orthogonal to the first. -/
def IsPCAAxes (X : List Vec3) (w₁ w₂ : Vec3) : Prop :=
  w₁.dot w₁ = 1 ∧ w₂.dot w₂ = 1 ∧ w₁.dot w₂ = 0 ∧
  (∀ w : Vec3, w.dot w = 1 → dirVar X w ≤ dirVar X w₁) ∧
  (∀ w : Vec3, w.dot w = 1 → w.dot w₁ = 0 → dirVar X w ≤ dirVar X w₂)

/-- Squared Euclidean distance between two projected points. -/
noncomputable def dist2 (p q : ProjectedPoint) : ℝ :=
  (p.pc1 - q.pc1) ^ 2 + (p.pc2 - q.pc2) ^ 2

/-- Euclidean distance between two projected points. -/
noncomputable def euclid (p q : ProjectedPoint) : ℝ := Real.sqrt (dist2 p q)

/-! ### List helpers -/

theorem zipWith_left_only {α β γ : Type} (f : α → γ) (as : List α) (bs : List β)
    (h : as.length = bs.length) :
    List.zipWith (fun a _ => f a) as bs = as.map f := by
  induction as generalizing bs with
  | nil => simp
  | cons a as ih =>
    cases bs with
    | nil => simp at h
    | cons b bs =>
      simp only [List.zipWith, List.map]
      rw [ih bs (by simpa using h)]

theorem zipWith_right_only {α β γ : Type} (g : β → γ) (as : List α) (bs : List β)
    (h : as.length = bs.length) :
    List.zipWith (fun _ b => g b) as bs = bs.map g := by
  induction as generalizing bs with
  | nil => cases bs with
    | nil => simp
    | cons b bs => simp at h
  | cons a as ih =>
    cases bs with
    | nil => simp at h
    | cons b bs =>
      simp only [List.zipWith, List.map]
      rw [ih bs (by simpa using h)]

theorem length_standardize (rs : List CustomerSegmentRecord) :
    (standardize rs).length = rs.length := by
  simp [standardize]

theorem length_center (X : List Vec3) : (center X).length = X.length := by
  simp [center]

/-- C3: the projector rejects every input with fewer than 2 records, with
the spec's `InsufficientDataError` (sklearn: `PCA(n_components=2).fit`
raises because `n_components` exceeds `min(n_samples, n_features)`). -/
theorem project_insufficient_data (w₁ w₂ : Vec3) (rs : List CustomerSegmentRecord)
    (h : rs.length < 2) :
    projectWith w₁ w₂ rs = .error .insufficientDataError := by
  unfold projectWith
  rw [if_pos h]

theorem project_insufficient_data_witness :
    ([⟨1, 1, 1, 0⟩] : List CustomerSegmentRecord).length < 2 ∧
    projectWith ⟨1, 0, 0⟩ ⟨0, 1, 0⟩ [⟨1, 1, 1, 0⟩] =
      .error .insufficientDataError :=
  ⟨by decide, project_insufficient_data ⟨1, 0, 0⟩ ⟨0, 1, 0⟩ [⟨1, 1, 1, 0⟩] (by decide)⟩

/-- C2: a successful projection returns one point per record and carries
each record's cluster label at the same index. -/
theorem project_preserves_order_and_labels (w₁ w₂ : Vec3)
    (rs : List CustomerSegmentRecord) (pts : List ProjectedPoint)
    (hok : projectWith w₁ w₂ rs = .ok pts) :
    pts.length = rs.length ∧
    ∀ (i : ℕ) (hi : i < pts.length) (hri : i < rs.length),
      (pts.get ⟨i, hi⟩).cluster = (rs.get ⟨i, hri⟩).cluster := by
  unfold projectWith at hok
  by_cases h2 : rs.length < 2
  · rw [if_pos h2] at hok
    exact absurd hok (by simp)
  · rw [if_neg h2] at hok
    have hpts := (Except.ok.inj hok).symm
    have hlen : pts.length = rs.length := by
      rw [hpts, List.length_zipWith, length_center, length_standardize, min_self]
    refine ⟨hlen, ?_⟩
    intro i hi hri
    subst hpts
    simp only [List.get_eq_getElem, List.getElem_zipWith]

/-! ### A concrete projector run

Four records whose standardized feature columns are mutually orthogonal
with unit variance, so the standardized matrix is its own centering and
the coordinate axes are valid PCA directions. -/

def rfmSample : List CustomerSegmentRecord :=
  [⟨3, 3, 3, 0⟩, ⟨3, 1, 1, 1⟩, ⟨1, 3, 1, 2⟩, ⟨1, 1, 3, 3⟩]

def sampleMatrix : List Vec3 :=
  [⟨1, 1, 1⟩, ⟨1, -1, -1⟩, ⟨-1, 1, -1⟩, ⟨-1, -1, 1⟩]

def axis1 : Vec3 := ⟨1, 0, 0⟩

def axis2 : Vec3 := ⟨0, 1, 0⟩

def ptsSample : List ProjectedPoint :=
  [⟨1, 1, 0⟩, ⟨1, -1, 1⟩, ⟨-1, 1, 2⟩, ⟨-1, -1, 3⟩]

theorem rMean_sampleCol : rMean [(3 : ℝ), 3, 1, 1] = 2 := by
  norm_num [rMean]

theorem popVar_sampleCol : popVar [(3 : ℝ), 3, 1, 1] = 1 := by
  norm_num [popVar, rMean]

theorem colScale_sampleCol : colScale [(3 : ℝ), 3, 1, 1] = 1 := by
  rw [colScale, if_neg (by rw [popVar_sampleCol]; norm_num), popVar_sampleCol,
    Real.sqrt_one]

theorem rMean_sampleCol' : rMean [(3 : ℝ), 1, 3, 1] = 2 := by
  norm_num [rMean]

theorem popVar_sampleCol' : popVar [(3 : ℝ), 1, 3, 1] = 1 := by
  norm_num [popVar, rMean]

theorem colScale_sampleCol' : colScale [(3 : ℝ), 1, 3, 1] = 1 := by
  rw [colScale, if_neg (by rw [popVar_sampleCol']; norm_num), popVar_sampleCol',
    Real.sqrt_one]

theorem rMean_sampleCol'' : rMean [(3 : ℝ), 1, 1, 3] = 2 := by
  norm_num [rMean]

theorem popVar_sampleCol'' : popVar [(3 : ℝ), 1, 1, 3] = 1 := by
  norm_num [popVar, rMean]

theorem colScale_sampleCol'' : colScale [(3 : ℝ), 1, 1, 3] = 1 := by
  rw [colScale, if_neg (by rw [popVar_sampleCol'']; norm_num), popVar_sampleCol'',
    Real.sqrt_one]

theorem recencyCol_sample : recencyCol rfmSample = [3, 3, 1, 1] := by
  norm_num [recencyCol, rfmSample]

theorem frequencyCol_sample : frequencyCol rfmSample = [3, 1, 3, 1] := by
  norm_num [frequencyCol, rfmSample]

theorem monetaryCol_sample : monetaryCol rfmSample = [3, 1, 1, 3] := by
  norm_num [monetaryCol, rfmSample]

theorem standardize_sample : standardize rfmSample = sampleMatrix := by
  unfold standardize
  rw [recencyCol_sample, frequencyCol_sample, monetaryCol_sample,
    rMean_sampleCol, colScale_sampleCol, rMean_sampleCol', colScale_sampleCol',
    rMean_sampleCol'', colScale_sampleCol'']
  show List.map _ rfmSample = sampleMatrix
  norm_num [rfmSample, sampleMatrix]

theorem center_sampleMatrix : center sampleMatrix = sampleMatrix := by
  have hmean : meanVec sampleMatrix = ⟨0, 0, 0⟩ := by
    norm_num [meanVec, sampleMatrix, rMean]
  unfold center
  rw [hmean]
  norm_num [sampleMatrix, Vec3.sub]

theorem projectWith_sample : projectWith axis1 axis2 rfmSample = .ok ptsSample := by
  unfold projectWith
  rw [if_neg (by norm_num [rfmSample])]
  rw [standardize_sample, center_sampleMatrix]
  norm_num [sampleMatrix, rfmSample, ptsSample, Vec3.dot, axis1, axis2]

theorem project_preserves_order_and_labels_witness :
    ptsSample.length = rfmSample.length ∧
    ∀ (i : ℕ) (hi : i < ptsSample.length) (hri : i < rfmSample.length),
      (ptsSample.get ⟨i, hi⟩).cluster = (rfmSample.get ⟨i, hri⟩).cluster :=
  project_preserves_order_and_labels axis1 axis2 rfmSample ptsSample
    projectWith_sample

/-! ### Constant features standardize to zero (C4) -/

theorem list_nonneg_sum_zero (l : List ℝ) (hpos : ∀ x ∈ l, 0 ≤ x)
    (hsum : l.sum = 0) : ∀ x ∈ l, x = 0 := by
  induction l with
  | nil => simp
  | cons a t ih =>
    have hs : a + t.sum = 0 := by simpa using hsum
    have ha : 0 ≤ a := hpos a (by simp)
    have ht : 0 ≤ t.sum := List.sum_nonneg (fun x hx => hpos x (by simp [hx]))
    intro x hx
    rcases List.mem_cons.mp hx with h | h
    · rw [h]; linarith
    · exact ih (fun y hy => hpos y (by simp [hy])) (by linarith) x h

/-- Zero population variance forces every value to equal the column mean. -/
theorem popVar_eq_zero_all_mean (xs : List ℝ) (hv : popVar xs = 0) :
    ∀ x ∈ xs, x = rMean xs := by
  intro x hx
  have hne : xs ≠ [] := List.ne_nil_of_mem hx
  have hlen : (0 : ℝ) < xs.length := by
    have : 0 < xs.length := List.length_pos_of_ne_nil hne
    exact_mod_cast this
  unfold popVar at hv
  have hsum : (xs.map (fun t => (t - rMean xs) ^ 2)).sum = 0 := by
    rcases div_eq_zero_iff.mp hv with h | h
    · exact h
    · exact absurd h (by positivity)
  have hterm : (x - rMean xs) ^ 2 = 0 :=
    list_nonneg_sum_zero _ (by
        intro y hy
        rcases List.mem_map.mp hy with ⟨t, _, rfl⟩
        positivity)
      hsum _ (List.mem_map.mpr ⟨x, hx, rfl⟩)
  have := pow_eq_zero_iff (n := 2) (by norm_num) |>.mp hterm
  linarith [sub_eq_zero.mp this]

/-- On a zero-variance column the scaler's denominator is 1 and every
standardized entry is exactly 0. -/
theorem standCol_zero_var (xs : List ℝ) (hv : popVar xs = 0) :
    ∀ x ∈ xs, (x - rMean xs) / colScale xs = 0 := by
  intro x hx
  have hm := popVar_eq_zero_all_mean xs hv x hx
  rw [hm]
  simp

/-- C4: if a feature has zero variance (equivalently, zero sample standard
deviation) across all records, `StandardScaler` replaces the zero scale
by 1 — so no division by zero happens — and the standardized column that
enters the projection is exactly the all-zero column (no NaN/infinity,
which do not exist in the real-number model). -/
theorem standardize_constant_feature (rs : List CustomerSegmentRecord) :
    (popVar (recencyCol rs) = 0 →
      colScale (recencyCol rs) = 1 ∧
      (standardize rs).map Vec3.x = List.replicate rs.length 0) ∧
    (popVar (frequencyCol rs) = 0 →
      colScale (frequencyCol rs) = 1 ∧
      (standardize rs).map Vec3.y = List.replicate rs.length 0) ∧
    (popVar (monetaryCol rs) = 0 →
      colScale (monetaryCol rs) = 1 ∧
      (standardize rs).map Vec3.z = List.replicate rs.length 0) := by
  refine ⟨fun hv => ⟨by rw [colScale, if_pos hv], ?_⟩,
    fun hv => ⟨by rw [colScale, if_pos hv], ?_⟩,
    fun hv => ⟨by rw [colScale, if_pos hv], ?_⟩⟩ <;>
  · rw [List.eq_replicate_iff]
    constructor
    · simp [standardize]
    · intro b hb
      simp only [standardize, List.map_map, List.mem_map, Function.comp] at hb
      rcases hb with ⟨r, hr, rfl⟩
      first
      | exact standCol_zero_var _ hv _ (List.mem_map.mpr ⟨r, hr, rfl⟩)

/-- Two records with a constant recency column. -/
def rfmConstRecency : List CustomerSegmentRecord :=
  [⟨5, 1, 10, 0⟩, ⟨5, 3, 20, 1⟩]

theorem standardize_constant_feature_witness :
    popVar (recencyCol rfmConstRecency) = 0 ∧
    (colScale (recencyCol rfmConstRecency) = 1 ∧
      (standardize rfmConstRecency).map Vec3.x =
        List.replicate rfmConstRecency.length 0) := by
  have hv : popVar (recencyCol rfmConstRecency) = 0 := by
    norm_num [popVar, rMean, recencyCol, rfmConstRecency]
  exact ⟨hv, (standardize_constant_feature rfmConstRecency).1 hv⟩

/-! ### Variance ordering of the two principal coordinates (C6) -/

noncomputable def sumVec (X : List Vec3) : Vec3 :=
  ⟨(X.map Vec3.x).sum, (X.map Vec3.y).sum, (X.map Vec3.z).sum⟩

theorem dot_add_left (u v w : Vec3) : (Vec3.mk (u.x + v.x) (u.y + v.y) (u.z + v.z)).dot w = u.dot w + v.dot w := by
  simp [Vec3.dot]
  ring

theorem sum_map_dot (X : List Vec3) (w : Vec3) :
    (X.map (fun v => v.dot w)).sum = (sumVec X).dot w := by
  induction X with
  | nil => simp [sumVec, Vec3.dot]
  | cons v X ih =>
    simp only [List.map, List.sum_cons, ih, sumVec]
    rw [← dot_add_left]

theorem sum_map_sub_const (xs : List ℝ) (c : ℝ) :
    (xs.map (fun t => t - c)).sum = xs.sum - xs.length * c := by
  induction xs with
  | nil => simp
  | cons a l ih =>
    simp only [List.map, List.sum_cons, ih, List.length_cons]
    push_cast
    ring

theorem sum_sub_mean (xs : List ℝ) : (xs.map (fun t => t - rMean xs)).sum = 0 := by
  rw [sum_map_sub_const]
  cases xs with
  | nil => simp
  | cons a l =>
    have hlen : ((a :: l).length : ℝ) ≠ 0 := by
      simp
      positivity
    rw [rMean, mul_div_cancel₀ _ hlen]
    ring

theorem center_map_x (X : List Vec3) :
    (center X).map Vec3.x = (X.map Vec3.x).map (fun t => t - rMean (X.map Vec3.x)) := by
  simp [center, meanVec, Vec3.sub, List.map_map]

theorem center_map_y (X : List Vec3) :
    (center X).map Vec3.y = (X.map Vec3.y).map (fun t => t - rMean (X.map Vec3.y)) := by
  simp [center, meanVec, Vec3.sub, List.map_map]

theorem center_map_z (X : List Vec3) :
    (center X).map Vec3.z = (X.map Vec3.z).map (fun t => t - rMean (X.map Vec3.z)) := by
  simp [center, meanVec, Vec3.sub, List.map_map]

/-- The centered matrix has zero column sums. -/
theorem sumVec_center (X : List Vec3) : sumVec (center X) = ⟨0, 0, 0⟩ := by
  unfold sumVec
  rw [center_map_x, center_map_y, center_map_z, sum_sub_mean, sum_sub_mean,
    sum_sub_mean]

/-- Projections of a centered matrix onto any direction have zero mean. -/
theorem rMean_proj_center (X : List Vec3) (w : Vec3) :
    rMean ((center X).map (fun v => v.dot w)) = 0 := by
  rw [rMean, sum_map_dot, sumVec_center]
  simp [Vec3.dot]

/-- For a zero-mean column, the population variance is the mean square. -/
theorem popVar_zero_mean (xs : List ℝ) (h : rMean xs = 0) :
    popVar xs = (xs.map (fun t => t ^ 2)).sum / xs.length := by
  unfold popVar
  rw [h]
  simp

/-- The variance of the projections of a centered matrix onto `w` is the
captured variance `dirVar`. -/
theorem popVar_proj_center (X : List Vec3) (w : Vec3) :
    popVar ((center X).map (fun v => v.dot w)) = dirVar (center X) w := by
  rw [popVar_zero_mean _ (rMean_proj_center X w), dirVar, List.map_map,
    List.length_map]
  rfl

/-- C6: on any successful projection whose directions satisfy the PCA
guarantee, the variance of `pc1` over the output points is at least the
variance of `pc2`. -/
theorem project_variance_order (rs : List CustomerSegmentRecord) (w₁ w₂ : Vec3)
    (pts : List ProjectedPoint)
    (hax : IsPCAAxes (center (standardize rs)) w₁ w₂)
    (hok : projectWith w₁ w₂ rs = .ok pts) :
    popVar (pts.map ProjectedPoint.pc2) ≤ popVar (pts.map ProjectedPoint.pc1) := by
  unfold projectWith at hok
  by_cases h2 : rs.length < 2
  · rw [if_pos h2] at hok
    exact absurd hok (by simp)
  · rw [if_neg h2] at hok
    have hpts := (Except.ok.inj hok).symm
    have hlenX : (center (standardize rs)).length = rs.length := by
      rw [length_center, length_standardize]
    have hmap1 : pts.map ProjectedPoint.pc1 =
        (center (standardize rs)).map (fun v => v.dot w₁) := by
      rw [hpts, List.map_zipWith]
      exact zipWith_left_only (fun v => v.dot w₁) _ rs hlenX
    have hmap2 : pts.map ProjectedPoint.pc2 =
        (center (standardize rs)).map (fun v => v.dot w₂) := by
      rw [hpts, List.map_zipWith]
      exact zipWith_left_only (fun v => v.dot w₂) _ rs hlenX
    rw [hmap1, hmap2, popVar_proj_center, popVar_proj_center]
    exact hax.2.2.2.1 w₂ hax.2.1

theorem dirVar_sampleMatrix (w : Vec3) :
    dirVar sampleMatrix w = w.x ^ 2 + w.y ^ 2 + w.z ^ 2 := by
  simp [dirVar, sampleMatrix, Vec3.dot]
  ring

/-- The coordinate axes are valid PCA directions for the sample matrix,
whose covariance is the identity. -/
theorem isPCAAxes_sample : IsPCAAxes sampleMatrix axis1 axis2 := by
  refine ⟨by norm_num [Vec3.dot, axis1], by norm_num [Vec3.dot, axis2],
    by norm_num [Vec3.dot, axis1, axis2], ?_, ?_⟩
  · intro w hw
    dsimp [Vec3.dot] at hw
    rw [dirVar_sampleMatrix, dirVar_sampleMatrix]
    norm_num [axis1]
    linear_combination hw
  · intro w hw _
    dsimp [Vec3.dot] at hw
    rw [dirVar_sampleMatrix, dirVar_sampleMatrix]
    norm_num [axis2]
    linear_combination hw

theorem project_variance_order_witness :
    IsPCAAxes (center (standardize rfmSample)) axis1 axis2 ∧
    popVar (ptsSample.map ProjectedPoint.pc2) ≤
      popVar (ptsSample.map ProjectedPoint.pc1) := by
  have hax : IsPCAAxes (center (standardize rfmSample)) axis1 axis2 := by
    rw [standardize_sample, center_sampleMatrix]
    exact isPCAAxes_sample
  exact ⟨hax,
    project_variance_order rfmSample axis1 axis2 ptsSample hax projectWith_sample⟩

/-! ### Determinism up to per-axis sign flips (C7) -/

theorem dot_smul_right (v w : Vec3) (c : ℝ) :
    v.dot (Vec3.smul c w) = c * v.dot w := by
  simp [Vec3.dot, Vec3.smul]
  ring

/-- Pandas' positional default used to read the point lists at any index. -/
def originPoint : ProjectedPoint := ⟨0, 0, 0⟩

/-- C7: a second projector run whose eigenvector signs are flipped
axis-by-axis (the only nondeterminism the SVD leaves) yields a point set
at the same pairwise Euclidean distances as the first run. -/
theorem project_sign_flip_distances (w₁ w₂ : Vec3) (s₁ s₂ : ℝ)
    (rs : List CustomerSegmentRecord) (pts ptsF : List ProjectedPoint)
    (hs₁ : s₁ = 1 ∨ s₁ = -1) (hs₂ : s₂ = 1 ∨ s₂ = -1)
    (hok : projectWith w₁ w₂ rs = .ok pts)
    (hokF : projectWith (Vec3.smul s₁ w₁) (Vec3.smul s₂ w₂) rs = .ok ptsF) :
    ∀ i j : ℕ,
      euclid (pts.getD i originPoint) (pts.getD j originPoint) =
      euclid (ptsF.getD i originPoint) (ptsF.getD j originPoint) := by
  unfold projectWith at hok hokF
  by_cases h2 : rs.length < 2
  · rw [if_pos h2] at hok
    exact absurd hok (by simp)
  · rw [if_neg h2] at hok
    rw [if_neg h2] at hokF
    have hpts := (Except.ok.inj hok).symm
    have hptsF := (Except.ok.inj hokF).symm
    have hmap : ptsF = pts.map
        (fun p => ⟨s₁ * p.pc1, s₂ * p.pc2, p.cluster⟩) := by
      rw [hpts, hptsF, List.map_zipWith]
      congr 1
      funext v r
      rw [dot_smul_right, dot_smul_right]
    have hz : (fun p : ProjectedPoint => ProjectedPoint.mk (s₁ * p.pc1)
        (s₂ * p.pc2) p.cluster) originPoint = originPoint := by
      simp [originPoint]
    have hg : ∀ n : ℕ, ptsF.getD n originPoint =
        ProjectedPoint.mk (s₁ * (pts.getD n originPoint).pc1)
          (s₂ * (pts.getD n originPoint).pc2)
          (pts.getD n originPoint).cluster := by
      intro n
      rw [hmap]
      calc (pts.map _).getD n originPoint
          = (pts.map _).getD n ((fun p : ProjectedPoint =>
              ProjectedPoint.mk (s₁ * p.pc1) (s₂ * p.pc2) p.cluster)
              originPoint) := by rw [hz]
        _ = _ := List.getD_map pts originPoint _
    intro i j
    rw [hg i, hg j]
    unfold euclid dist2
    congr 1
    rcases hs₁ with h | h <;> rcases hs₂ with h' | h' <;> subst h h' <;>
      dsimp <;> ring

def ptsFlipped : List ProjectedPoint :=
  [⟨-1, 1, 0⟩, ⟨-1, -1, 1⟩, ⟨1, 1, 2⟩, ⟨1, -1, 3⟩]

theorem projectWith_sample_flip :
    projectWith (Vec3.smul (-1) axis1) (Vec3.smul 1 axis2) rfmSample =
      .ok ptsFlipped := by
  unfold projectWith
  rw [if_neg (by norm_num [rfmSample])]
  rw [standardize_sample, center_sampleMatrix]
  norm_num [sampleMatrix, rfmSample, ptsFlipped, Vec3.dot, Vec3.smul, axis1, axis2]

theorem project_sign_flip_distances_witness :
    projectWith (Vec3.smul (-1) axis1) (Vec3.smul 1 axis2) rfmSample =
      .ok ptsFlipped ∧
    ∀ i j : ℕ,
      euclid (ptsSample.getD i originPoint) (ptsSample.getD j originPoint) =
      euclid (ptsFlipped.getD i originPoint) (ptsFlipped.getD j originPoint) :=
  ⟨projectWith_sample_flip,
    project_sign_flip_distances axis1 axis2 (-1) 1 rfmSample ptsSample ptsFlipped
      (Or.inr rfl) (Or.inl rfl) projectWith_sample projectWith_sample_flip⟩

/-! ### The operations never write the RFM table (C8)

The script holds the table in the module-level variable `rfm`; lines
53-60 and 64-69 only read it (the one `pandas` write in the program,
line 101-102, targets the separate `rules` table).  Statefulness is made
explicit: each operation takes the ambient table state and returns the
state it leaves behind together with its result. -/

structure DashState where
  rfmTable : List CustomerSegmentRecord

def summarizeOp (s : DashState) (selectedCluster : ℤ) :
    DashState × SegmentStats :=
  (s, summarize s.rfmTable selectedCluster)

noncomputable def projectOp (w₁ w₂ : Vec3) (s : DashState) :
    DashState × Except ProjectionError (List ProjectedPoint) :=
  (s, projectWith w₁ w₂ s.rfmTable)

/-- C8: neither operation changes the table state — in particular the
multiset of cluster labels is untouched — and a successful projection
reproduces the input's labels verbatim rather than creating, reassigning
or deleting any. -/
theorem ops_leave_table_unchanged (s : DashState) (selectedCluster : ℤ)
    (w₁ w₂ : Vec3) :
    (summarizeOp s selectedCluster).1 = s ∧
    (projectOp w₁ w₂ s).1 = s ∧
    ∀ pts, (projectOp w₁ w₂ s).2 = .ok pts →
      pts.map ProjectedPoint.cluster =
        s.rfmTable.map CustomerSegmentRecord.cluster := by
  refine ⟨rfl, rfl, ?_⟩
  intro pts hok
  unfold projectOp projectWith at hok
  by_cases h2 : s.rfmTable.length < 2
  · rw [if_pos h2] at hok
    exact absurd hok (by simp)
  · rw [if_neg h2] at hok
    have hpts := (Except.ok.inj hok).symm
    have hlenX : (center (standardize s.rfmTable)).length = s.rfmTable.length := by
      rw [length_center, length_standardize]
    rw [hpts, List.map_zipWith]
    exact zipWith_right_only CustomerSegmentRecord.cluster _ _ hlenX

theorem ops_leave_table_unchanged_witness :
    (summarizeOp ⟨rfmSample⟩ 0).1 = ⟨rfmSample⟩ ∧
    (projectOp axis1 axis2 ⟨rfmSample⟩).1 = ⟨rfmSample⟩ ∧
    ptsSample.map ProjectedPoint.cluster =
      rfmSample.map CustomerSegmentRecord.cluster := by
  obtain ⟨h1, h2, h3⟩ := ops_leave_table_unchanged ⟨rfmSample⟩ 0 axis1 axis2
  exact ⟨h1, h2, h3 ptsSample projectWith_sample⟩

/-! ### The script's file reads (C9) and filter independence (C10)

Lines 40-41 read the two CSVs with no guard; lines 99-105 read the
association-rules CSV inside the script's one `try/except
FileNotFoundError`.  The file system is modelled as three optional file
contents; `pd.read_csv` on a missing file is the `FileNotFoundError`
value, which the script propagates except for the rules file. -/

/-- A row of `clothing_retail_300.csv` (only the columns the script
uses). -/
structure TransactionRecord where
  country : String
  season : String
  category : String
  size : String
  gender : String
  lineTotal : ℚ
deriving DecidableEq

/-- A row of `rules_sorted.csv` (the columns the script displays). -/
structure RuleRecord where
  antecedents : String
  consequents : String
  support : ℚ
  confidence : ℚ
  lift : ℚ
deriving DecidableEq

structure FileSystem where
  retailCSV : Option (List TransactionRecord)
  rfmCSV : Option (List CustomerSegmentRecord)
  rulesCSV : Option (List RuleRecord)

/-- The unrecovered failures of a script run: a `FileNotFoundError` from
one of the two unguarded `pd.read_csv` calls (lines 40-41), or the
projection raising at line 67 — the script aborts there, so the failure
propagates out of the run. -/
inductive ScriptError where
  | fileNotFound (filename : String)
  | projectionFailed (e : ProjectionError)
deriving DecidableEq

/-- `pd.read_csv`: the file's rows, or `FileNotFoundError`. -/
def readCSV {α : Type} (file : Option α) (filename : String) :
    Except ScriptError α :=
  match file with
  | none => .error (.fileNotFound filename)
  | some rows => .ok rows

/-- A character stripped by `.str.strip("(){\x7d")`. -/
def isSetBracket (c : Char) : Bool :=
  c == '(' || c == ')' || c == Char.ofNat 123 || c == Char.ofNat 125

/-- Python `str.strip(chars)`: remove the given characters from both
ends. -/
def stripBrackets (s : String) : String :=
  String.mk (((s.toList.dropWhile isSetBracket).reverse.dropWhile
    isSetBracket).reverse)

/-- Lines 101-102: `.str.replace("frozenset", "").str.strip("(){\x7d")`. -/
def cleanField (s : String) : String :=
  stripBrackets (s.replace "frozenset" "")

def cleanRules (rules : List RuleRecord) : List RuleRecord :=
  rules.map (fun r =>
    { r with antecedents := cleanField r.antecedents
             consequents := cleanField r.consequents })

/-- What the association-rules section of the page shows: the cleaned
first 10 rows, or (when the file is missing) the warning of line 105. -/
inductive RulesSection where
  | table (rows : List RuleRecord)
  | warning (msg : String)
deriving DecidableEq

def rulesWarning : String :=
  "No association rules file found. Please generate 'rules_sorted.csv' if needed."

/-- Lines 99-105: the one guarded read of the program. -/
def rulesSectionOf (fs : FileSystem) : RulesSection :=
  match fs.rulesCSV with
  | none => .warning rulesWarning
  | some rules => .table ((cleanRules rules).take 10)

/-- The data shown by a page that rendered to the end, one field per
chart/table of the script; `pcaPoints` is the successful projection (a
failed projection aborts the script before a page is completed). -/
structure Dashboard where
  segmentStats : SegmentStats
  pcaPoints : List ProjectedPoint
  topCategories : String → ℕ
  sizeCounts : String → ℕ
  genderCounts : String → ℕ
  seasonalRevenue : List (String × ℚ)
  rulesView : RulesSection

/-- Line 48: `filtered_df = df[(df["Country"] == country) & (df["Season"]
== season)]`. -/
def filteredDF (df : List TransactionRecord) (country season : String) :
    List TransactionRecord :=
  df.filter (fun t => t.country == country && t.season == season)

/-- The completed page for loaded tables `df` and `rfm`, a successful
projection `pts`, and the rules section `rv`.  The category/size/gender
breakdowns count rows of `filtered_df`; the seasonal revenue groups the
full `df` (line 94); the segment metrics use the full `rfm` table
(lines 54-60). -/
noncomputable def mkDashboard (df : List TransactionRecord)
    (rfm : List CustomerSegmentRecord) (country season : String)
    (selectedCluster : ℤ) (pts : List ProjectedPoint) (rv : RulesSection) :
    Dashboard :=
  { segmentStats := summarize rfm selectedCluster
    pcaPoints := pts
    topCategories := fun cat =>
      (filteredDF df country season).countP (fun t => t.category == cat)
    sizeCounts := fun sz =>
      (filteredDF df country season).countP (fun t => t.size == sz)
    genderCounts := fun g =>
      (filteredDF df country season).countP (fun t => t.gender == g)
    seasonalRevenue := ["Winter", "Spring", "Summer", "Fall"].map
      (fun sn => (sn,
        ((df.filter (fun t => t.season == sn)).map
          (fun t => t.lineTotal)).sum))
    rulesView := rv }

/-- The whole script run on a file system and on the three user-chosen
filter values, with the PCA directions passed in as for `projectWith`.
The two `pd.read_csv` calls of lines 40-41 have no guard, so a missing
file propagates; a projection failure at line 67 likewise aborts the run
(nothing after it renders); only then is the page completed, with the
rules section the one place a missing file is recovered (lines 99-105). -/
noncomputable def runScript (fs : FileSystem) (country season : String)
    (selectedCluster : ℤ) (w₁ w₂ : Vec3) : Except ScriptError Dashboard :=
  match readCSV fs.retailCSV "clothing_retail_300.csv" with
  | .error e => .error e
  | .ok df =>
    match readCSV fs.rfmCSV "rfm_with_clusters.csv" with
    | .error e => .error e
    | .ok rfm =>
      match projectWith w₁ w₂ rfm with
      | .error e => .error (.projectionFailed e)
      | .ok pts =>
        .ok (mkDashboard df rfm country season selectedCluster pts
          (rulesSectionOf fs))

/-- C9: the association-rules read is the program's only recovered
failure.  A missing transaction CSV or RFM CSV propagates
`FileNotFoundError` out of the run, a projection failure propagates as
well, and when nothing else fails the run succeeds whether or not the
rules file exists — its absence surfaces only as the line-105 warning on
the completed page. -/
theorem single_file_guard (fs : FileSystem) (country season : String)
    (selectedCluster : ℤ) (w₁ w₂ : Vec3) :
    (fs.retailCSV = none →
      runScript fs country season selectedCluster w₁ w₂ =
        .error (.fileNotFound "clothing_retail_300.csv")) ∧
    (∀ df, fs.retailCSV = some df → fs.rfmCSV = none →
      runScript fs country season selectedCluster w₁ w₂ =
        .error (.fileNotFound "rfm_with_clusters.csv")) ∧
    (∀ df rfm e, fs.retailCSV = some df → fs.rfmCSV = some rfm →
      projectWith w₁ w₂ rfm = .error e →
      runScript fs country season selectedCluster w₁ w₂ =
        .error (.projectionFailed e)) ∧
    (∀ df rfm pts, fs.retailCSV = some df → fs.rfmCSV = some rfm →
      projectWith w₁ w₂ rfm = .ok pts →
      ∃ d, runScript fs country season selectedCluster w₁ w₂ = .ok d ∧
        (d.rulesView = .warning rulesWarning ↔ fs.rulesCSV = none)) := by
  rcases fs with ⟨retail, rfmF, rules⟩
  refine ⟨?_, ?_, ?_, ?_⟩
  · intro h
    subst h
    simp [runScript, readCSV]
  · intro df hdf hrfm
    subst hdf
    subst hrfm
    simp [runScript, readCSV]
  · intro df rfm e hdf hrfm hproj
    subst hdf
    subst hrfm
    simp [runScript, readCSV, hproj]
  · intro df rfm pts hdf hrfm hproj
    subst hdf
    subst hrfm
    refine ⟨mkDashboard df rfm country season selectedCluster pts
      (rulesSectionOf ⟨some df, some rfm, rules⟩), ?_, ?_⟩
    · simp [runScript, readCSV, hproj]
    · cases rules with
      | none => simp [mkDashboard, rulesSectionOf, rulesWarning]
      | some rows => simp [mkDashboard, rulesSectionOf]

def fsSample : FileSystem :=
  { retailCSV := some []
    rfmCSV := some rfmSample
    rulesCSV := none }

theorem single_file_guard_witness :
    runScript ⟨none, some rfmSample, none⟩ "UK" "Winter" 0 axis1 axis2 =
      .error (.fileNotFound "clothing_retail_300.csv") ∧
    runScript ⟨some [], none, none⟩ "UK" "Winter" 0 axis1 axis2 =
      .error (.fileNotFound "rfm_with_clusters.csv") ∧
    runScript ⟨some [], some [⟨1, 1, 1, 0⟩], some []⟩ "UK" "Winter" 0 axis1 axis2 =
      .error (.projectionFailed .insufficientDataError) ∧
    (∃ d, runScript fsSample "UK" "Winter" 0 axis1 axis2 = .ok d ∧
      (d.rulesView = .warning rulesWarning ↔ fsSample.rulesCSV = none)) := by
  have hshort : projectWith axis1 axis2 [⟨1, 1, 1, 0⟩] =
      .error .insufficientDataError := by
    unfold projectWith
    rw [if_pos (by decide)]
  refine ⟨?_, ?_, ?_, ?_⟩
  · exact (single_file_guard ⟨none, some rfmSample, none⟩ "UK" "Winter" 0
      axis1 axis2).1 rfl
  · exact (single_file_guard ⟨some [], none, none⟩ "UK" "Winter" 0
      axis1 axis2).2.1 [] rfl rfl
  · exact (single_file_guard ⟨some [], some [⟨1, 1, 1, 0⟩], some []⟩ "UK"
      "Winter" 0 axis1 axis2).2.2.1 [] [⟨1, 1, 1, 0⟩] .insufficientDataError
      rfl rfl hshort
  · exact (single_file_guard fsSample "UK" "Winter" 0 axis1 axis2).2.2.2
      [] rfmSample ptsSample rfl rfl projectWith_sample

/-- C10: the country and season filter values do not reach the segment
metrics, the PCA projection, or the seasonal revenue breakdown — two runs
that differ only in those two selections agree on all three. -/
theorem filters_do_not_affect_core (fs : FileSystem)
    (country₁ season₁ country₂ season₂ : String) (selectedCluster : ℤ)
    (w₁ w₂ : Vec3) :
    (runScript fs country₁ season₁ selectedCluster w₁ w₂).map
        Dashboard.segmentStats =
      (runScript fs country₂ season₂ selectedCluster w₁ w₂).map
        Dashboard.segmentStats ∧
    (runScript fs country₁ season₁ selectedCluster w₁ w₂).map
        Dashboard.pcaPoints =
      (runScript fs country₂ season₂ selectedCluster w₁ w₂).map
        Dashboard.pcaPoints ∧
    (runScript fs country₁ season₁ selectedCluster w₁ w₂).map
        Dashboard.seasonalRevenue =
      (runScript fs country₂ season₂ selectedCluster w₁ w₂).map
        Dashboard.seasonalRevenue := by
  rcases fs with ⟨retail, rfmF, rules⟩
  cases retail with
  | none => exact ⟨rfl, rfl, rfl⟩
  | some df =>
    cases rfmF with
    | none => exact ⟨rfl, rfl, rfl⟩
    | some rfm =>
      cases hpw : projectWith w₁ w₂ rfm with
      | error e => refine ⟨?_, ?_, ?_⟩ <;> simp [runScript, readCSV, hpw]
      | ok pts =>
        refine ⟨?_, ?_, ?_⟩ <;>
          simp [runScript, readCSV, hpw, mkDashboard, Except.map]

end FashionDashboard
